import Mathlib

/-!
Verification of the resvg rendering pipeline specification against the code.

Two developments side by side:

* namespace `SkiaSafe` — a shallow embedding of the `resvg-skia-safe` bindings
  crate (`bindings/resvg-skia-safe/src/lib.rs`): `Color`, `Matrix`, the gradient
  descriptions, and the fallible creation calls (`Surface::new_rgba`,
  `Shader::new_linear_gradient`, `Shader::new_radial_gradient`,
  `PathEffect::new_dash_path`).  The concrete skia rasterizer behind the
  bindings is out of scope for the repository, so its creation calls are
  abstracted as a `SkiaBackend` record of success predicates; the bindings
  translate their inputs into explicit argument records so that what is handed
  to skia can be inspected.  Machine floats (`f32`/`f64`) are modelled as exact
  rationals, machine integers as `Nat`/`Fin`.

* namespace `Resvg` — a shallow embedding of the public crate root
  (`src/lib.rs`): `Image`, `Image::from_surface`, `render`, `render_node`.
  The private renderer modules (`render`, `paint_server`, ...) are declared in
  `src/lib.rs` but their files are not part of the sources at hand, so those
  definitions are modelled from the specification and marked as such in their
  doc comments.
-/

namespace SkiaSafe

/-- `TileMode` of the bindings (Clamp / Repeat / Mirror). -/
inductive TileMode where
  | Clamp
  | Repeat
  | Mirror
deriving DecidableEq, Repr

/-- `Color(u8, u8, u8, u8)` of the bindings: a tuple struct whose fields are,
in order, alpha, red, green, blue (see `Color::new(a, r, g, b)`). -/
structure Color where
  a : Fin 256
  r : Fin 256
  g : Fin 256
  b : Fin 256
deriving DecidableEq, Repr

/-- `Color::new(a, r, g, b)` stores the channels in declaration order. -/
def Color.new (a r g b : Fin 256) : Color := ⟨a, r, g, b⟩

/-- `Color::to_u32`: `(a << 24) | (r << 16) | (g << 8) | b` on `u32`.
Every operand is below `2 ^ 32`, so the `u32` arithmetic never wraps and the
plain `Nat` computation agrees with it. -/
def Color.to_u32 (c : Color) : Nat :=
  c.a.val <<< 24 ||| c.r.val <<< 16 ||| c.g.val <<< 8 ||| c.b.val

/-- The affine matrix stored by the bindings, with the six coefficients in the
order skia stores them (and in which `Matrix::data` reads them back through
`get_9`): scaleX, skewX, transX, skewY, scaleY, transY.  The bottom row of the
3x3 matrix is fixed to (0, 0, 1) by `Matrix::new_from`.  The `f32`
coefficients are modelled as exact rationals. -/
structure Matrix where
  scaleX : ℚ
  skewX : ℚ
  transX : ℚ
  skewY : ℚ
  scaleY : ℚ
  transY : ℚ
deriving DecidableEq, Repr

/-- `Matrix::new_from(a, b, c, d, e, f)` calls
`skia_safe::Matrix::new_all(a, c, e, b, d, f, 0, 0, 1)`, i.e. it stores the
row-major coefficients (scaleX := a, skewX := c, transX := e, skewY := b,
scaleY := d, transY := f). -/
def Matrix.new_from (a b c d e f : ℚ) : Matrix :=
  ⟨a, c, e, b, d, f⟩

/-- `Matrix::data` reads the nine stored coefficients with `get_9` and returns
the first six, in storage (row-major) order. -/
def Matrix.data (m : Matrix) : ℚ × ℚ × ℚ × ℚ × ℚ × ℚ :=
  (m.scaleX, m.skewX, m.transX, m.skewY, m.scaleY, m.transY)

/-- The identity matrix (`Matrix::new` / `Matrix::default`). -/
def Matrix.ident : Matrix := ⟨1, 0, 0, 0, 1, 0⟩

/-- Matrix product of the two affine maps (row-major 3x3 product with the
implicit bottom rows (0, 0, 1)). -/
def Matrix.mul (m n : Matrix) : Matrix :=
  { scaleX := m.scaleX * n.scaleX + m.skewX * n.skewY
  , skewX := m.scaleX * n.skewX + m.skewX * n.scaleY
  , transX := m.scaleX * n.transX + m.skewX * n.transY + m.transX
  , skewY := m.skewY * n.scaleX + m.scaleY * n.skewY
  , scaleY := m.skewY * n.skewX + m.scaleY * n.scaleY
  , transY := m.skewY * n.transX + m.scaleY * n.transY + m.transY }

/-- Determinant of the affine matrix (the bottom row is (0, 0, 1), so this is
the determinant of the linear 2x2 block). -/
def Matrix.det (m : Matrix) : ℚ :=
  m.scaleX * m.scaleY - m.skewX * m.skewY

/-- Modelled from the spec: `Matrix::invert` delegates to the skia
`SkMatrix::invert`, which is outside the repository; the spec describes the
matrix as "invertible (fails, producing no result, when singular — e.g. zero
determinant)".  The model returns no result exactly on zero determinant and
otherwise the exact affine inverse. -/
def Matrix.invert (m : Matrix) : Option Matrix :=
  if m.det = 0 then none
  else some
    { scaleX := m.scaleY / m.det
    , skewX := -m.skewX / m.det
    , transX := (m.skewX * m.transY - m.scaleY * m.transX) / m.det
    , skewY := -m.skewY / m.det
    , scaleY := m.scaleX / m.det
    , transY := (m.skewY * m.transX - m.scaleX * m.transY) / m.det }

/-- `Gradient` of the bindings: colors, positions, tile mode, local matrix. -/
structure Gradient where
  colors : List Nat
  positions : List ℚ
  tile_mode : TileMode
  matrix : Matrix

/-- `LinearGradient` of the bindings. -/
structure LinearGradient where
  start_point : ℚ × ℚ
  end_point : ℚ × ℚ
  base : Gradient

/-- `RadialGradient` of the bindings: two circles, each given as
(center x, center y, radius). -/
structure RadialGradient where
  start_circle : ℚ × ℚ × ℚ
  end_circle : ℚ × ℚ × ℚ
  base : Gradient

/-- Argument record of the `skia_safe::Shader::linear_gradient` call issued by
`Shader::new_linear_gradient`. -/
structure LinearGradientArgs where
  start_point : ℚ × ℚ
  end_point : ℚ × ℚ
  colors : List Nat
  positions : List ℚ
  tile_mode : TileMode
  local_matrix : Matrix
deriving Repr

/-- Argument record of the `skia_safe::Shader::two_point_conical_gradient`
call issued by `Shader::new_radial_gradient`. -/
structure ConicalGradientArgs where
  start_point : ℚ × ℚ
  start_radius : ℚ
  end_point : ℚ × ℚ
  end_radius : ℚ
  colors : List Nat
  positions : List ℚ
  tile_mode : TileMode
  local_matrix : Matrix
deriving Repr

/-- The argument translation performed by `Shader::new_linear_gradient`
(lines 488-504 of the bindings): both gradient points, the base colors,
positions, tile mode and local matrix are forwarded unchanged. -/
def linear_gradient_args (grad : LinearGradient) : LinearGradientArgs :=
  { start_point := (grad.start_point.1, grad.start_point.2)
  , end_point := (grad.end_point.1, grad.end_point.2)
  , colors := grad.base.colors
  , positions := grad.base.positions
  , tile_mode := grad.base.tile_mode
  , local_matrix := grad.base.matrix }

/-- The argument translation performed by `Shader::new_radial_gradient`
(lines 506-526 of the bindings), transcribed exactly: the source computes

  `let start_point = Point::new(grad.start_circle.0, grad.start_circle.1);`
  `let end_point   = Point::new(grad.start_circle.0, grad.start_circle.1);`

so BOTH conical points are built from the start circle; only the radii use
their own circles (`start_circle.2` and `end_circle.2`). -/
def radial_gradient_args (grad : RadialGradient) : ConicalGradientArgs :=
  { start_point := (grad.start_circle.1, grad.start_circle.2.1)
  , end_point := (grad.start_circle.1, grad.start_circle.2.1)
  , start_radius := grad.start_circle.2.2
  , end_radius := grad.end_circle.2.2
  , colors := grad.base.colors
  , positions := grad.base.positions
  , tile_mode := grad.base.tile_mode
  , local_matrix := grad.base.matrix }

/-- Outcome of one bindings call: a produced value, an absence result
(the Rust function returned `None`), or a Rust abort caused by calling
`unwrap()` on `None`. -/
inductive CallResult (α : Type) where
  | ok (a : α)
  | absent
  | panicked
deriving DecidableEq, Repr

/-- The concrete skia rasterizer, abstracted as the set of fallible creation
calls the bindings issue: each field decides whether skia returns an object
for the given arguments (`false` models a `None` from skia, e.g. an
out-of-memory raster allocation or a rejected dash interval list). -/
structure SkiaBackend where
  new_raster : Nat → Nat → Bool
  make_linear_gradient : LinearGradientArgs → Bool
  make_conical_gradient : ConicalGradientArgs → Bool
  make_dash_path_effect : List ℚ → ℚ → Bool

/-- Alpha handling mode of a raster surface. -/
inductive AlphaType where
  | Premul
  | Unpremul
deriving DecidableEq, Repr

/-- A raster surface as produced by `Surface::new_rgba_with_alpha`. -/
structure RasterSurface where
  width : Nat
  height : Nat
  alpha_type : AlphaType
deriving DecidableEq, Repr

/-- `Surface::new_rgba_with_alpha`: builds the image info and calls
`skia_safe::Surface::new_raster(..)?` — a `None` from skia is propagated with
the `?` operator, i.e. it becomes an absence result, never an abort. -/
def Surface.new_rgba_with_alpha (bk : SkiaBackend) (width height : Nat)
    (alpha_type : AlphaType) : CallResult RasterSurface :=
  if bk.new_raster width height then .ok ⟨width, height, alpha_type⟩ else .absent

/-- `Surface::new_rgba(width, height)` =
`Surface::new_rgba_with_alpha(width, height, AlphaType::Unpremul)`. -/
def Surface.new_rgba (bk : SkiaBackend) (width height : Nat) : CallResult RasterSurface :=
  Surface.new_rgba_with_alpha bk width height .Unpremul

/-- `Shader::new_linear_gradient`: issues the skia call and then calls
`shader.unwrap()` — a `None` from skia aborts the process instead of being
returned as an absence result. -/
def Shader.new_linear_gradient (bk : SkiaBackend) (grad : LinearGradient) :
    CallResult LinearGradientArgs :=
  let args := linear_gradient_args grad
  if bk.make_linear_gradient args then .ok args else .panicked

/-- `Shader::new_radial_gradient`: issues the two-point-conical skia call and
then calls `shader.unwrap()` — a `None` from skia aborts the process. -/
def Shader.new_radial_gradient (bk : SkiaBackend) (grad : RadialGradient) :
    CallResult ConicalGradientArgs :=
  let args := radial_gradient_args grad
  if bk.make_conical_gradient args then .ok args else .panicked

/-- `PathEffect::new_dash_path`: issues `dash_path_effect::new` and then calls
`path_effect.unwrap()` — a `None` from skia aborts the process. -/
def PathEffect.new_dash_path (bk : SkiaBackend) (intervals : List ℚ) (phase : ℚ) :
    CallResult (List ℚ × ℚ) :=
  if bk.make_dash_path_effect intervals phase then .ok (intervals, phase) else .panicked

/-- A backend that honours the documented skia contract for dash path effects:
`SkDashPathEffect::Make` returns no effect unless the interval count is even
and at least two; all other creations succeed. -/
def dashCheckingBackend : SkiaBackend :=
  { new_raster := fun _ _ => true
  , make_linear_gradient := fun _ => true
  , make_conical_gradient := fun _ => true
  , make_dash_path_effect := fun intervals _ =>
      decide (intervals.length % 2 = 0 ∧ 2 ≤ intervals.length) }

end SkiaSafe

namespace Resvg

/-- One RGBA pixel, each channel a byte value (kept as `Nat`, always below
256 for pixels produced by the model). -/
structure Pixel where
  r : Nat
  g : Nat
  b : Nat
  a : Nat
deriving DecidableEq, Repr

/-- Modelled from the spec: `svgfilters::demultiply_alpha` (an external crate
called by `Image::from_surface`), which converts a premultiplied pixel to
unpremultiplied RGBA by dividing each color channel by the alpha (rounded,
saturating; a fully transparent pixel is left unchanged). -/
def demultiply_pixel (p : Pixel) : Pixel :=
  if p.a = 0 then p
  else
    { r := min 255 ((p.r * 255 + p.a / 2) / p.a)
    , g := min 255 ((p.g * 255 + p.a / 2) / p.a)
    , b := min 255 ((p.b * 255 + p.a / 2) / p.a)
    , a := p.a }

/-- The `tiny_skia::Surface` used by the crate root: a premultiplied pixel
buffer with its dimensions. -/
structure TinySurface where
  width : Nat
  height : Nat
  data : List Pixel
deriving DecidableEq, Repr

/-- The public `Image`: raster data plus width and height
(`src/lib.rs`, lines 33-38). -/
structure Image where
  data : List Pixel
  width : Nat
  height : Nat
deriving DecidableEq, Repr

/-- `Image::from_surface` (`src/lib.rs`, lines 41-52): copies the surface
bytes, applies `svgfilters::demultiply_alpha` to every pixel of the copy, and
wraps the result with the surface dimensions. -/
def Image.from_surface (surface : TinySurface) : Image :=
  { data := surface.data.map demultiply_pixel
  , width := surface.width
  , height := surface.height }

/-- Modelled from the spec: `usvg::FitTo` — the fit policy of the public
render entry points ("original size, fixed size, zoomed,
fit-to-width/height"). -/
inductive FitTo where
  | Original
  | Width (w : Nat)
  | Height (h : Nat)
  | Zoom (z : ℚ)

/-- Modelled from the spec: the target image size determined by the source
size and the fit policy; `Original` keeps the source size unchanged. -/
def fit_to_size (size : Nat × Nat) : FitTo → Option (Nat × Nat)
  | .Original => some size
  | .Width w => if size.1 = 0 then none else some (w, size.2 * w / size.1)
  | .Height h => if size.2 = 0 then none else some (size.1 * h / size.2, h)
  | .Zoom z => some ((z * size.1).floor.toNat, (z * size.2).floor.toNat)

/-- Modelled from the spec: allocation of a premultiplied offscreen surface —
"allocation failure (e.g., width/height zero or out-of-memory) is the only
expected error and is signaled by an absence result".  Out-of-memory is not
representable in the model, so allocation fails exactly on a zero dimension;
a fresh surface is fully transparent. -/
def new_premultiplied_surface (width height : Nat) : Option TinySurface :=
  if width = 0 ∨ height = 0 then none
  else some ⟨width, height, List.replicate (width * height) ⟨0, 0, 0, 0⟩⟩

/-- Modelled from the spec: a scene node — a drawable shape painted with one
solid premultiplied color, or a group that requires an isolated layer of the
given size with a group opacity. -/
inductive Node where
  | shape (color : Pixel)
  | group (layerWidth layerHeight : Nat) (opacity : ℚ) (children : List Node)

/-- Modelled from the spec: a scene tree — the root node plus the document
size of the scene. -/
structure Tree where
  width : Nat
  height : Nat
  root : Node

/-- Premultiplied source-over blending of one source pixel onto one
destination pixel (saturating byte arithmetic). -/
def blendOver (src dst : Pixel) : Pixel :=
  { r := min 255 (src.r + dst.r * (255 - src.a) / 255)
  , g := min 255 (src.g + dst.g * (255 - src.a) / 255)
  , b := min 255 (src.b + dst.b * (255 - src.a) / 255)
  , a := min 255 (src.a + dst.a * (255 - src.a) / 255) }

/-- Scale a premultiplied pixel by a group opacity in [0, 1]. -/
def applyOpacity (opacity : ℚ) (p : Pixel) : Pixel :=
  { r := (opacity * p.r).floor.toNat
  , g := (opacity * p.g).floor.toNat
  , b := (opacity * p.b).floor.toNat
  , a := (opacity * p.a).floor.toNat }

/-- Composite the pixels of an isolated layer onto the destination pixels,
position by position; layer pixels beyond the destination are dropped and
destination pixels beyond the layer are kept. -/
def compositePixels : List Pixel → List Pixel → List Pixel
  | ds, [] => ds
  | [], _ => []
  | d :: ds, s :: ss => blendOver s d :: compositePixels ds ss

mutual

/-- Modelled from the spec (§4.2, §4.6): render one node onto the canvas.
A shape draws directly onto the canvas.  A group acquires an isolated layer
surface, renders its children into it, and composites the layer back with the
group opacity; if layer allocation fails "the node and its subtree render
nothing and traversal continues with the parent render state unchanged". -/
def renderNode (canvas : TinySurface) : Node → TinySurface
  | .shape color => { canvas with data := canvas.data.map (blendOver color) }
  | .group layerWidth layerHeight opacity children =>
    match new_premultiplied_surface layerWidth layerHeight with
    | none => canvas
    | some layer =>
      let rendered := renderChildren layer children
      { canvas with
          data := compositePixels canvas.data (rendered.data.map (applyOpacity opacity)) }

/-- Render a child list in document order (later children composite over
earlier ones). -/
def renderChildren (canvas : TinySurface) : List Node → TinySurface
  | [] => canvas
  | n :: ns => renderChildren (renderNode canvas n) ns

end

/-- Modelled from the spec: `render::render_to_canvas` — draw the whole tree
onto the given canvas; total, every failure below the root is absorbed
locally. -/
def render_to_canvas (tree : Tree) (_img_size : Nat × Nat) (canvas : TinySurface) :
    TinySurface :=
  renderNode canvas tree.root

/-- Modelled from the spec: `render::render_node_to_canvas` — draw a single
node onto the given canvas; total, every failure below the root is absorbed
locally. -/
def render_node_to_canvas (node : Node) (_img_size : Nat × Nat) (canvas : TinySurface) :
    TinySurface :=
  renderNode canvas node

/-- Modelled from the spec: `render::create_root_image` — compute the fitted
target size, allocate the premultiplied root surface (the only fatal failure
point), and fill the optional background color. -/
def create_root_image (size : Nat × Nat) (fit_to : FitTo) (background : Option Pixel) :
    Option (TinySurface × (Nat × Nat)) :=
  match fit_to_size size fit_to with
  | none => none
  | some img_size =>
    match new_premultiplied_surface img_size.1 img_size.2 with
    | none => none
    | some surface =>
      let surface := match background with
        | none => surface
        | some c => { surface with data := surface.data.map (fun _ => c) }
      some (surface, img_size)

/-- `render` (`src/lib.rs`, lines 99-108): create the root image sized from
the tree (propagating `None` with the `?` operator), render the tree onto it,
and wrap the surface with `Image::from_surface`. -/
def render (tree : Tree) (fit_to : FitTo) (background : Option Pixel) : Option Image :=
  match create_root_image (tree.width, tree.height) fit_to background with
  | none => none
  | some (img, img_size) => some (Image.from_surface (render_to_canvas tree img_size img))

/-- A bounding box: position and pixel size. -/
structure Rect where
  x : ℚ
  y : ℚ
  width : Nat
  height : Nat
deriving DecidableEq, Repr

/-- `render_node` (`src/lib.rs`, lines 111-133): query the node bounding box
(returning `None` when it is not computable), create the root image sized from
the bounding box, render the node onto it, and wrap the surface.  The
`calculate_bbox` query lives in the external scene-tree crate, so it is passed
in as a function. -/
def render_node (calculate_bbox : Node → Option Rect) (node : Node) (fit_to : FitTo)
    (background : Option Pixel) : Option Image :=
  match calculate_bbox node with
  | none => none
  | some node_bbox =>
    match create_root_image (node_bbox.width, node_bbox.height) fit_to background with
    | none => none
    | some (img, img_size) =>
      some (Image.from_surface (render_node_to_canvas node img_size img))

/-- Modelled from the spec: one gradient stop of a paint-server definition —
an offset and a color. -/
structure Stop where
  offset : ℚ
  color : Nat
deriving DecidableEq, Repr

/-- Order of stops by offset. -/
def stopLE (s t : Stop) : Prop := s.offset ≤ t.offset

instance : DecidableRel stopLE :=
  fun s t => inferInstanceAs (Decidable (s.offset ≤ t.offset))

instance : IsTotal Stop stopLE := ⟨fun s t => le_total s.offset t.offset⟩

instance : IsTrans Stop stopLE := ⟨fun _ _ _ h h' => le_trans h h'⟩

/-- Clamp an offset into [0, 1]. -/
def clampOffset (q : ℚ) : ℚ :=
  if q < 0 then 0 else if 1 < q then 1 else q

/-- Modelled from the spec: stop-list resolution of the paint-server resolver —
"deduplicating/clamping positions into non-decreasing order is the resolver
responsibility — a definition with out-of-order stops must be sorted before
constructing the shader".  Offsets are clamped into [0, 1] and the stops are
sorted ascending by offset. -/
def resolve_stops (stops : List Stop) : List Stop :=
  List.insertionSort stopLE (stops.map fun s => { s with offset := clampOffset s.offset })

/-- Modelled from the spec: gradient resolution hands the resolved stops to the
shader as the `Gradient` record of the bindings — the colors and positions are
the resolved stop list, componentwise. -/
def resolved_gradient (stops : List Stop) (tile_mode : SkiaSafe.TileMode)
    (matrix : SkiaSafe.Matrix) : SkiaSafe.Gradient :=
  { colors := (resolve_stops stops).map Stop.color
  , positions := (resolve_stops stops).map Stop.offset
  , tile_mode := tile_mode
  , matrix := matrix }

/-- A 1x1 scene holding one opaque red shape. -/
def tree0 : Tree := ⟨1, 1, .shape ⟨255, 0, 0, 255⟩⟩

/-- A 1x1 scene whose only child is a group requesting a zero-sized isolated
layer: its layer allocation fails, so the subtree renders nothing. -/
def treeBadSubtree : Tree := ⟨1, 1, .group 0 0 1 [.shape ⟨255, 0, 0, 255⟩]⟩

/-- A bounding-box query that reports the box (10, 10, 20, 20) for every
node. -/
def bboxQuery20 : Node → Option Rect := fun _ => some ⟨10, 10, 20, 20⟩

end Resvg

namespace SkiaSafe

/-- A concrete radial gradient whose two circles are distinct: start circle
centered (1, 2) with radius 3, end circle centered (4, 5) with radius 6. -/
def exampleRadialGradient : RadialGradient :=
  { start_circle := (1, 2, 3)
  , end_circle := (4, 5, 6)
  , base :=
    { colors := [4278190080]
    , positions := [0]
    , tile_mode := .Clamp
    , matrix := Matrix.ident } }

/-- A concrete matrix with determinant 1 (scaleX 2, skewX 3, transX 5,
skewY 1, scaleY 2, transY 7). -/
def exampleMatrix : Matrix := ⟨2, 3, 5, 1, 2, 7⟩

/-- The exact affine inverse of `exampleMatrix`. -/
def exampleMatrixInv : Matrix := ⟨2, -3, 11, -1, 2, -9⟩

end SkiaSafe

/-! ## Theorems -/

/-- Merging a multiple of `2 ^ i` with a value below `2 ^ i` by bitwise or is
the same as adding them. -/
theorem lor_of_mul_add_lt (i x y : ℕ) (h : y < 2 ^ i) :
    2 ^ i * x ||| y = 2 ^ i * x + y :=
  (Nat.mul_add_lt_is_or h x).symm

/-- Claim C10: for all coefficients a, b, c, d, e, f,
`Matrix::new_from(a, b, c, d, e, f).data()` returns (a, c, e, b, d, f) — the
accessor yields the coefficients in row-major (scaleX, skewX, transX, skewY,
scaleY, transY) order, not in the constructor argument order. -/
theorem matrix_data_is_row_major (a b c d e f : ℚ) :
    SkiaSafe.Matrix.data (SkiaSafe.Matrix.new_from a b c d e f) = (a, c, e, b, d, f) :=
  rfl

/-- Claim C9: for all bytes a, r, g, b, `Color::new(a, r, g, b).to_u32()`
equals `a * 2^24 + r * 2^16 + g * 2^8 + b` — the constructor takes alpha
first and `to_u32` packs the channels in ARGB order. -/
theorem color_to_u32_packs_argb (a r g b : Fin 256) :
    (SkiaSafe.Color.new a r g b).to_u32 =
      a.val * 2 ^ 24 + r.val * 2 ^ 16 + g.val * 2 ^ 8 + b.val := by
  have hr : r.val * 2 ^ 16 < 2 ^ 24 := by
    have h := r.isLt
    calc r.val * 2 ^ 16 < 256 * 2 ^ 16 := by
          exact Nat.mul_lt_mul_of_lt_of_le h (le_refl _) (by norm_num)
      _ = 2 ^ 24 := by norm_num
  have hg : g.val * 2 ^ 8 < 2 ^ 16 := by
    have h := g.isLt
    calc g.val * 2 ^ 8 < 256 * 2 ^ 8 := by
          exact Nat.mul_lt_mul_of_lt_of_le h (le_refl _) (by norm_num)
      _ = 2 ^ 16 := by norm_num
  have hb : b.val < 2 ^ 8 := by
    have h := b.isLt
    simp only [show (2 : ℕ) ^ 8 = 256 by norm_num]
    exact h
  show a.val <<< 24 ||| r.val <<< 16 ||| g.val <<< 8 ||| b.val = _
  rw [Nat.shiftLeft_eq, Nat.shiftLeft_eq, Nat.shiftLeft_eq]
  rw [show a.val * 2 ^ 24 = 2 ^ 24 * a.val from Nat.mul_comm _ _]
  rw [lor_of_mul_add_lt 24 a.val (r.val * 2 ^ 16) hr]
  rw [show 2 ^ 24 * a.val + r.val * 2 ^ 16 = 2 ^ 16 * (2 ^ 8 * a.val + r.val) by ring]
  rw [lor_of_mul_add_lt 16 (2 ^ 8 * a.val + r.val) (g.val * 2 ^ 8) hg]
  rw [show 2 ^ 16 * (2 ^ 8 * a.val + r.val) + g.val * 2 ^ 8 =
        2 ^ 8 * (2 ^ 16 * a.val + 2 ^ 8 * r.val + g.val) by ring]
  rw [lor_of_mul_add_lt 8 (2 ^ 16 * a.val + 2 ^ 8 * r.val + g.val) b.val hb]

/-- Claim C1 (evaluating the code at the failing input): for the gradient with
start circle (1, 2, 3) and end circle (4, 5, 6), the argument record built by
`Shader::new_radial_gradient` carries (1, 2) — the START circle center — as
the second conical point, even though the end circle center is (4, 5); the
radii are taken from their own circles.  The claim requires the end circle
center as the second conical point, so the code diverges from it. -/
theorem radial_gradient_second_point_from_start_circle :
    (SkiaSafe.radial_gradient_args SkiaSafe.exampleRadialGradient).start_point = (1, 2) ∧
    (SkiaSafe.radial_gradient_args SkiaSafe.exampleRadialGradient).start_radius = 3 ∧
    (SkiaSafe.radial_gradient_args SkiaSafe.exampleRadialGradient).end_radius = 6 ∧
    (SkiaSafe.radial_gradient_args SkiaSafe.exampleRadialGradient).end_point = (1, 2) ∧
    (SkiaSafe.exampleRadialGradient.end_circle.1,
      SkiaSafe.exampleRadialGradient.end_circle.2.1) = ((4 : ℚ), (5 : ℚ)) ∧
    (SkiaSafe.radial_gradient_args SkiaSafe.exampleRadialGradient).end_point ≠
      (SkiaSafe.exampleRadialGradient.end_circle.1,
        SkiaSafe.exampleRadialGradient.end_circle.2.1) := by
  refine ⟨rfl, rfl, rfl, rfl, rfl, ?_⟩
  decide

/-- Claim C2 (counterexample): `PathEffect::new_dash_path` called with the
single interval [1] against a backend that follows the documented skia dash
contract (an odd interval count yields no effect) aborts via `unwrap()`
instead of returning an absence result — so not every canvas-contract
creation signals failure by absence, and the operation can abort. -/
theorem dash_path_panics_on_odd_interval_count :
    SkiaSafe.PathEffect.new_dash_path SkiaSafe.dashCheckingBackend [1] 0 =
      SkiaSafe.CallResult.panicked := by
  rfl

/-- Claim C2 as amended: surface creation signals backend allocation failure
by an absence result and never aborts; but shader creation and dash
path-effect creation call `unwrap()` on the backend result, so they never
return an absence result and abort the process exactly when the backend
fails to create the object. -/
theorem creation_failure_signalling (bk : SkiaSafe.SkiaBackend) (width height : Nat)
    (alpha_type : SkiaSafe.AlphaType) (lg : SkiaSafe.LinearGradient)
    (rg : SkiaSafe.RadialGradient) (intervals : List ℚ) (phase : ℚ) :
    (SkiaSafe.Surface.new_rgba_with_alpha bk width height alpha_type ≠ .panicked) ∧
    (SkiaSafe.Surface.new_rgba bk width height = .absent ↔
      bk.new_raster width height = false) ∧
    (SkiaSafe.Shader.new_linear_gradient bk lg ≠ .absent) ∧
    (SkiaSafe.Shader.new_linear_gradient bk lg = .panicked ↔
      bk.make_linear_gradient (SkiaSafe.linear_gradient_args lg) = false) ∧
    (SkiaSafe.Shader.new_radial_gradient bk rg ≠ .absent) ∧
    (SkiaSafe.Shader.new_radial_gradient bk rg = .panicked ↔
      bk.make_conical_gradient (SkiaSafe.radial_gradient_args rg) = false) ∧
    (SkiaSafe.PathEffect.new_dash_path bk intervals phase ≠ .absent) ∧
    (SkiaSafe.PathEffect.new_dash_path bk intervals phase = .panicked ↔
      bk.make_dash_path_effect intervals phase = false) := by
  refine ⟨?_, ?_, ?_, ?_, ?_, ?_, ?_, ?_⟩
  · unfold SkiaSafe.Surface.new_rgba_with_alpha
    cases h : bk.new_raster width height <;> simp [h]
  · unfold SkiaSafe.Surface.new_rgba SkiaSafe.Surface.new_rgba_with_alpha
    cases h : bk.new_raster width height <;> simp [h]
  · unfold SkiaSafe.Shader.new_linear_gradient
    cases h : bk.make_linear_gradient (SkiaSafe.linear_gradient_args lg) <;> simp [h]
  · unfold SkiaSafe.Shader.new_linear_gradient
    cases h : bk.make_linear_gradient (SkiaSafe.linear_gradient_args lg) <;> simp [h]
  · unfold SkiaSafe.Shader.new_radial_gradient
    cases h : bk.make_conical_gradient (SkiaSafe.radial_gradient_args rg) <;> simp [h]
  · unfold SkiaSafe.Shader.new_radial_gradient
    cases h : bk.make_conical_gradient (SkiaSafe.radial_gradient_args rg) <;> simp [h]
  · unfold SkiaSafe.PathEffect.new_dash_path
    cases h : bk.make_dash_path_effect intervals phase <;> simp [h]
  · unfold SkiaSafe.PathEffect.new_dash_path
    cases h : bk.make_dash_path_effect intervals phase <;> simp [h]

/-- Claim C8: for every gradient definition, including one whose stops are
given out of order, the stop-position list of the resolved `Gradient` record
handed to the shader is non-decreasing. -/
theorem resolved_gradient_positions_sorted (stops : List Resvg.Stop)
    (tile_mode : SkiaSafe.TileMode) (matrix : SkiaSafe.Matrix) :
    List.Sorted (· ≤ ·) ((Resvg.resolved_gradient stops tile_mode matrix).positions) := by
  show List.Sorted (· ≤ ·) ((Resvg.resolve_stops stops).map Resvg.Stop.offset)
  have h := List.sorted_insertionSort Resvg.stopLE
    (stops.map fun s => { s with offset := Resvg.clampOffset s.offset })
  exact List.Pairwise.map Resvg.Stop.offset (fun a b hab => hab) h

/-- Claim C6: for every matrix, `invert` returns no result exactly when the
matrix is singular (zero determinant), and otherwise returns a two-sided
inverse of the original. -/
theorem matrix_invert_none_iff_singular (m : SkiaSafe.Matrix) :
    (SkiaSafe.Matrix.invert m = none ↔ SkiaSafe.Matrix.det m = 0) ∧
    ∀ m', SkiaSafe.Matrix.invert m = some m' →
      SkiaSafe.Matrix.mul m m' = SkiaSafe.Matrix.ident ∧
      SkiaSafe.Matrix.mul m' m = SkiaSafe.Matrix.ident := by
  constructor
  · unfold SkiaSafe.Matrix.invert
    by_cases h : SkiaSafe.Matrix.det m = 0 <;> simp [h]
  · intro m' hm'
    unfold SkiaSafe.Matrix.invert at hm'
    by_cases h : SkiaSafe.Matrix.det m = 0
    · simp [h] at hm'
    · simp only [h, if_false] at hm'
      have hd : m.scaleX * m.scaleY - m.skewX * m.skewY ≠ 0 := h
      obtain rfl := (Option.some.injEq _ _).mp hm'
      constructor <;>
        · simp only [SkiaSafe.Matrix.mul, SkiaSafe.Matrix.ident, SkiaSafe.Matrix.det,
            SkiaSafe.Matrix.mk.injEq]
          refine ⟨?_, ?_, ?_, ?_, ?_, ?_⟩ <;> field_simp <;> ring

/-- Witness for claim C6: the theorem applied to the concrete matrix
(2, 3, 5, 1, 2, 7) with determinant 1 and inverse (2, -3, 11, -1, 2, -9). -/
theorem matrix_invert_none_iff_singular_witness :
    (SkiaSafe.Matrix.invert SkiaSafe.exampleMatrix = none ↔
      SkiaSafe.Matrix.det SkiaSafe.exampleMatrix = 0) ∧
    SkiaSafe.Matrix.mul SkiaSafe.exampleMatrix SkiaSafe.exampleMatrixInv =
      SkiaSafe.Matrix.ident ∧
    SkiaSafe.Matrix.mul SkiaSafe.exampleMatrixInv SkiaSafe.exampleMatrix =
      SkiaSafe.Matrix.ident := by
  have h := matrix_invert_none_iff_singular SkiaSafe.exampleMatrix
  have hinv : SkiaSafe.Matrix.invert SkiaSafe.exampleMatrix =
      some SkiaSafe.exampleMatrixInv := by
    norm_num [SkiaSafe.Matrix.invert, SkiaSafe.Matrix.det, SkiaSafe.exampleMatrix,
      SkiaSafe.exampleMatrixInv]
  exact ⟨h.1, (h.2 SkiaSafe.exampleMatrixInv hinv).1, (h.2 SkiaSafe.exampleMatrixInv hinv).2⟩

/-- Rendering a node never changes the canvas dimensions: every branch of
`renderNode` either returns the canvas or only replaces its data. -/
theorem renderNode_width (canvas : Resvg.TinySurface) (n : Resvg.Node) :
    (Resvg.renderNode canvas n).width = canvas.width := by
  cases n with
  | shape color => rfl
  | group layerWidth layerHeight opacity children =>
    rw [Resvg.renderNode]
    cases Resvg.new_premultiplied_surface layerWidth layerHeight <;> rfl

/-- Rendering a node never changes the canvas height. -/
theorem renderNode_height (canvas : Resvg.TinySurface) (n : Resvg.Node) :
    (Resvg.renderNode canvas n).height = canvas.height := by
  cases n with
  | shape color => rfl
  | group layerWidth layerHeight opacity children =>
    rw [Resvg.renderNode]
    cases Resvg.new_premultiplied_surface layerWidth layerHeight <;> rfl

/-- Claim C3: for every node with a computable non-empty bounding box,
`render_node` with no fit override (`FitTo::Original`) returns an image whose
width and height equal the bounding-box width and height. -/
theorem render_node_image_sized_to_bbox
    (calculate_bbox : Resvg.Node → Option Resvg.Rect) (node : Resvg.Node)
    (background : Option Resvg.Pixel) (bbox : Resvg.Rect)
    (hbbox : calculate_bbox node = some bbox)
    (hw : 0 < bbox.width) (hh : 0 < bbox.height) :
    ∃ img, Resvg.render_node calculate_bbox node Resvg.FitTo.Original background = some img ∧
      img.width = bbox.width ∧ img.height = bbox.height := by
  have hsurf : Resvg.new_premultiplied_surface bbox.width bbox.height =
      some ⟨bbox.width, bbox.height,
        List.replicate (bbox.width * bbox.height) ⟨0, 0, 0, 0⟩⟩ := by
    unfold Resvg.new_premultiplied_surface
    rw [if_neg]
    omega
  unfold Resvg.render_node
  rw [hbbox]
  unfold Resvg.create_root_image
  simp only [Resvg.fit_to_size]
  rw [hsurf]
  cases background with
  | none =>
    refine ⟨_, rfl, ?_, ?_⟩ <;>
      simp [Resvg.Image.from_surface, Resvg.render_node_to_canvas,
        renderNode_width, renderNode_height]
  | some c =>
    refine ⟨_, rfl, ?_, ?_⟩ <;>
      simp [Resvg.Image.from_surface, Resvg.render_node_to_canvas,
        renderNode_width, renderNode_height]

/-- Witness for claim C3: the theorem applied to the constant bounding-box
query reporting (10, 10, 20, 20) yields an image of exactly 20 by 20. -/
theorem render_node_image_sized_to_bbox_witness :
    ∃ img, Resvg.render_node Resvg.bboxQuery20 Resvg.tree0.root Resvg.FitTo.Original none =
        some img ∧ img.width = 20 ∧ img.height = 20 :=
  render_node_image_sized_to_bbox Resvg.bboxQuery20 Resvg.tree0.root none
    ⟨10, 10, 20, 20⟩ rfl (by decide) (by decide)

/-- Whether `render` produces an image depends only on the root image
creation, never on the tree content. -/
theorem render_isSome_eq_create_root_image_isSome (tree : Resvg.Tree)
    (fit_to : Resvg.FitTo) (background : Option Resvg.Pixel) :
    (Resvg.render tree fit_to background).isSome =
      (Resvg.create_root_image (tree.width, tree.height) fit_to background).isSome := by
  unfold Resvg.render
  cases h : Resvg.create_root_image (tree.width, tree.height) fit_to background with
  | none => rfl
  | some v => cases v with | mk img img_size => rfl

/-- Claim C4: `render` returns no image exactly when the root image surface
cannot be created; any failure below the root is absorbed locally, so whether
an image is produced is independent of the tree content (two trees of the
same document size either both render or both fail). -/
theorem render_none_iff_root_allocation_fails (tree : Resvg.Tree) (fit_to : Resvg.FitTo)
    (background : Option Resvg.Pixel) :
    (Resvg.render tree fit_to background = none ↔
      Resvg.create_root_image (tree.width, tree.height) fit_to background = none) ∧
    ∀ tree' : Resvg.Tree, tree'.width = tree.width → tree'.height = tree.height →
      ((Resvg.render tree' fit_to background).isSome ↔
        (Resvg.render tree fit_to background).isSome) := by
  constructor
  · unfold Resvg.render
    cases h : Resvg.create_root_image (tree.width, tree.height) fit_to background with
    | none => simp
    | some v => cases v with | mk img img_size => simp
  · intro tree' h1 h2
    rw [render_isSome_eq_create_root_image_isSome, render_isSome_eq_create_root_image_isSome,
      h1, h2]

/-- Witness for claim C4: the theorem applied to the 1x1 red-shape scene and
the same-sized scene whose whole subtree fails (its group requests a
zero-sized layer, so layer allocation fails): both render an image. -/
theorem render_none_iff_root_allocation_fails_witness :
    (Resvg.render Resvg.tree0 Resvg.FitTo.Original none = none ↔
      Resvg.create_root_image (Resvg.tree0.width, Resvg.tree0.height)
        Resvg.FitTo.Original none = none) ∧
    ((Resvg.render Resvg.treeBadSubtree Resvg.FitTo.Original none).isSome ↔
      (Resvg.render Resvg.tree0 Resvg.FitTo.Original none).isSome) := by
  have h := render_none_iff_root_allocation_fails Resvg.tree0 Resvg.FitTo.Original none
  exact ⟨h.1, h.2 Resvg.treeBadSubtree rfl rfl⟩

/-- Claim C5: every image returned by `render` or `render_node` is built by
`Image::from_surface`, which applies alpha demultiplication to every pixel of
the backend surface before exposing the data buffer. -/
theorem returned_images_are_demultiplied (fit_to : Resvg.FitTo)
    (background : Option Resvg.Pixel) :
    (∀ (tree : Resvg.Tree) (img : Resvg.Image),
      Resvg.render tree fit_to background = some img →
      ∃ s : Resvg.TinySurface, img = Resvg.Image.from_surface s ∧
        img.data = s.data.map Resvg.demultiply_pixel) ∧
    (∀ (calculate_bbox : Resvg.Node → Option Resvg.Rect) (node : Resvg.Node)
        (img : Resvg.Image),
      Resvg.render_node calculate_bbox node fit_to background = some img →
      ∃ s : Resvg.TinySurface, img = Resvg.Image.from_surface s ∧
        img.data = s.data.map Resvg.demultiply_pixel) := by
  constructor
  · intro tree img h
    unfold Resvg.render at h
    cases hc : Resvg.create_root_image (tree.width, tree.height) fit_to background with
    | none => rw [hc] at h; exact absurd h (by simp)
    | some v =>
      cases v with
      | mk surf img_size =>
        rw [hc] at h
        dsimp only at h
        have hx := (Option.some.injEq _ _).mp h
        subst hx
        exact ⟨Resvg.render_to_canvas tree img_size surf, rfl, rfl⟩
  · intro calculate_bbox node img h
    unfold Resvg.render_node at h
    cases hb : calculate_bbox node with
    | none => rw [hb] at h; exact absurd h (by simp)
    | some bbox =>
      rw [hb] at h
      dsimp only at h
      cases hc : Resvg.create_root_image (bbox.width, bbox.height) fit_to background with
      | none => rw [hc] at h; exact absurd h (by simp)
      | some v =>
        cases v with
        | mk surf img_size =>
          rw [hc] at h
          dsimp only at h
          have hx := (Option.some.injEq _ _).mp h
          subst hx
          exact ⟨Resvg.render_node_to_canvas node img_size surf, rfl, rfl⟩

/-- Witness for claim C5: the theorem applied to the 1x1 red-shape scene,
whose rendered image is the single unpremultiplied pixel (255, 0, 0, 255). -/
theorem returned_images_are_demultiplied_witness :
    ∃ s : Resvg.TinySurface,
      (⟨[⟨255, 0, 0, 255⟩], 1, 1⟩ : Resvg.Image) = Resvg.Image.from_surface s ∧
      (⟨[⟨255, 0, 0, 255⟩], 1, 1⟩ : Resvg.Image).data =
        s.data.map Resvg.demultiply_pixel :=
  (returned_images_are_demultiplied Resvg.FitTo.Original none).1 Resvg.tree0
    ⟨[⟨255, 0, 0, 255⟩], 1, 1⟩ rfl

/-- Claim C7: two invocations of `render` on the same scene tree with the same
fit policy and background produce images with identical pixel data and
dimensions (determinism; the embedded pipeline is a pure function, and scene
trees are inductive values, hence non-cyclic). -/
theorem render_deterministic (tree : Resvg.Tree) (fit_to : Resvg.FitTo)
    (background : Option Resvg.Pixel) (img1 img2 : Resvg.Image)
    (h1 : Resvg.render tree fit_to background = some img1)
    (h2 : Resvg.render tree fit_to background = some img2) :
    img1.data = img2.data ∧ img1.width = img2.width ∧ img1.height = img2.height := by
  have h : img1 = img2 := by
    have := h1.symm.trans h2
    exact (Option.some.injEq _ _).mp this
  subst h
  exact ⟨rfl, rfl, rfl⟩

/-- Witness for claim C7: the theorem applied twice to the 1x1 red-shape
scene. -/
theorem render_deterministic_witness :
    (⟨[⟨255, 0, 0, 255⟩], 1, 1⟩ : Resvg.Image).data =
        (⟨[⟨255, 0, 0, 255⟩], 1, 1⟩ : Resvg.Image).data ∧
      (⟨[⟨255, 0, 0, 255⟩], 1, 1⟩ : Resvg.Image).width =
        (⟨[⟨255, 0, 0, 255⟩], 1, 1⟩ : Resvg.Image).width ∧
      (⟨[⟨255, 0, 0, 255⟩], 1, 1⟩ : Resvg.Image).height =
        (⟨[⟨255, 0, 0, 255⟩], 1, 1⟩ : Resvg.Image).height :=
  render_deterministic Resvg.tree0 Resvg.FitTo.Original none
    ⟨[⟨255, 0, 0, 255⟩], 1, 1⟩ ⟨[⟨255, 0, 0, 255⟩], 1, 1⟩ rfl rfl
